import Mathlib

/-!
Shallow embedding of the chat-completion orchestration core
(`chatRequest` and `anthropicAgent` from the Electron main process).
External collaborators (settings store, conversation store, vector store,
title generator, provider adapters, web fetch) are modelled as oracles in an
environment record; each oracle returns `Except JsError _`, mirroring a JS
call that can throw. Persistence side effects are recorded in an explicit
trace. Curly braces inside string literals are written with hex escapes.
-/

/-- A JavaScript exception value: constructor name, message, and the optional
`code` property used by the SQLite driver. -/
structure JsError where
  name : String
  message : String
  code : Option String
deriving DecidableEq, Repr

/-- String interpolation of an Error value, as in JS template literals. -/
def errString (e : JsError) : String := e.name ++ ": " ++ e.message

/-- A chat message; `reasoning_content` is stamped on during envelope
assembly and absent otherwise. -/
structure Message where
  role : String
  content : String
  reasoning_content : Option String := none
deriving DecidableEq, Repr

structure User where
  id : Int
  name : String
deriving DecidableEq, Repr

/-- The user settings row consumed by chatRequest. -/
structure UserSettings where
  provider : Option String
  model : String
  promptId : Option Int
  temperature : Option Rat
deriving DecidableEq, Repr

/-- One retrieved chunk from the vector store. -/
structure RItem where
  content : String
  metadata : String
deriving DecidableEq, Repr

/-- The retrieval payload built from a vector store response
(lines 108-113 of the source: top_k is set to results.length). -/
structure RetrievalData where
  top_k : Nat
  results : List RItem
deriving DecidableEq, Repr

/-- Shape of the value resolved by vectorstoreQuery: a status, an optional
message, and, on success, the results sequence. An error report per the
collaborator contract carries no results. -/
structure VSResponse where
  status : String
  message : Option String
  results : Option (List RItem)
deriving DecidableEq, Repr

structure VSQuery where
  query : String
  userId : Int
  userName : String
  collectionId : Int
  collectionName : String
deriving DecidableEq, Repr

structure CollectionRow where
  name : String
deriving DecidableEq, Repr

structure ConvRow where
  id : Int
deriving DecidableEq, Repr

structure PromptRow where
  prompt : String
deriving DecidableEq, Repr

/-- What a provider adapter resolves with. -/
structure ProviderResponse where
  id : Int
  messages : List Message
  title : String
  content : String
  reasoning : Option String
  aborted : Bool
deriving DecidableEq, Repr

/-- Arguments handed to the selected provider adapter (the window handle and
the abort signal are omitted: they never influence the values the claims
are about). -/
structure ProviderArgs where
  tag : String
  messages : List Message
  activeUser : User
  userSettings : UserSettings
  prompt : String
  conversationId : Int
  title : String
  collectionId : Option Int
  data : Option RetrievalData

/-- Arguments of one db.addUserMessage call. -/
structure AddMsgArgs where
  userId : Int
  conversationId : Int
  role : String
  content : String
  reasoning : Option String
  collectionId : Option Int
deriving DecidableEq, Repr

/-- The object chatRequest resolves with. Error envelopes leave the
optional fields absent. -/
structure ChatResult where
  id : Int
  messages : List Message
  title : String
  content : Option String := none
  reasoning : Option String := none
  aborted : Option Bool := none
  data_content : Option String := none
  reasoning_content : Option String := none
deriving DecidableEq, Repr

/-- Durable side effects performed by a run, in order. -/
inductive Event where
  | conversationCreated (userId : Int) (title : Option String) (newId : Int)
  | messageAdded (userId : Int) (conversationId : Int) (role : String)
      (content : String) (reasoning : Option String)
      (collectionId : Option Int) (rowid : Int)
  | retrievedDataAdded (messageId : Int) (payload : RetrievalData)
deriving DecidableEq, Repr

abbrev Trace := List Event

/-- The request record passed to chatRequest. -/
structure ChatReq where
  messages : List Message
  activeUser : User
  conversationId : Option Int
  title : Option String
  collectionId : Option Int

/-- The external collaborators of chatRequest, each able to throw. -/
structure Env where
  platform : String
  homedir : String
  getUserSettings : Int → Except JsError UserSettings
  generateTitle : String → Int → String → Except JsError (Option String)
  getCollectionName : Int → Except JsError CollectionRow
  vectorstoreQuery : VSQuery → Except JsError VSResponse
  getUserConversationTitle : Option Int → Int → Except JsError (Option String)
  addUserConversation : Int → Option String → Except JsError ConvRow
  getUserPrompt : Int → Option Int → Except JsError (Option PromptRow)
  provider : ProviderArgs → Except JsError ProviderResponse
  addUserMessage : AddMsgArgs → Except JsError Int
  addRetrievedData : Int → String → Except JsError Unit

/-- Lowercasing, as String.prototype.toLowerCase on the keys involved
(kernel-reducible implementation over the character list). -/
def jsToLower (s : String) : String :=
  String.mk (s.data.map Char.toLower)

/-- Whitespace trimming, as String.prototype.trim (kernel-reducible
implementation over the character list). -/
def jsTrim (s : String) : String :=
  String.mk
    (((s.data.dropWhile Char.isWhitespace).reverse.dropWhile
        Char.isWhitespace).reverse)

/-- JS falsiness of a nullable string (null, undefined and the empty string
are falsy). -/
def jsFalsyStr : Option String → Bool
  | none => true
  | some s => s.isEmpty

/-- JS falsiness of a nullable id (null, undefined and 0 are falsy). -/
def jsFalsyId : Option Int → Bool
  | none => true
  | some i => i == 0

/-- JS falsiness of a nullable number (null, undefined and 0 are falsy). -/
def jsFalsyNum : Option Rat → Bool
  | none => true
  | some q => q == 0

/-- The numeric value of an id that passed a truthiness check. -/
def idVal : Option Int → Int
  | some i => i
  | none => 0

/-- Accessing `.content` of `messages[messages.length - 1]` throws a
TypeError when the list is empty. -/
def lastContent (msgs : List Message) : Except JsError String :=
  match msgs.getLast? with
  | none =>
      .error ⟨"TypeError",
        "Cannot read properties of undefined (reading \x27content\x27)", none⟩
  | some m => .ok m.content

/-- The error raised at line 189 of the source when no provider key matches. -/
def noProviderError : JsError :=
  ⟨"Error",
    "No AI provider selected. Please open Settings (top right) make sure you add an API key and select a provider under the \x27AI Provider\x27 tab.",
    none⟩

/-- The TypeError raised at line 110 when an error-status response carries no
results array and `.length` is read off undefined. -/
def typeErrorUndefinedLength : JsError :=
  ⟨"TypeError",
    "Cannot read properties of undefined (reading \x27length\x27)", none⟩

/-- The switch statement of lines 157-192: lowercases the configured key and
maps it to an adapter (represented by its tag); no match means the
no-provider error is raised. -/
def lookupProvider : Option String → Option String
  | none => none
  | some s =>
    match jsToLower s with
    | "openai" => some "openai"
    | "openrouter" => some "openrouter"
    | "azure open ai" => some "azure open ai"
    | "anthropic" => some "anthropic"
    | "gemini" => some "gemini"
    | "xai" => some "xai"
    | "local" => some "local"
    | "ollama" => some "ollama"
    | "custom" => some "custom"
    | "deepseek" => some "deepseek"
    | _ => none

/-- The generic catch-all envelope of lines 261-276. -/
def genericEnvelope (msgs : List Message) : ChatResult :=
  { id := -1
    messages := msgs ++
      [{ role := "assistant"
         content := "Please add an API key and select an AI Model in Settings." }]
    title := "Need API Key" }

/-- The platform-dependent log path interpolated at lines 89-96. -/
def logPath (platform homedir : String) : String :=
  if platform == "darwin" then
    homedir ++ "/Library/Application Support/notate/main.log"
  else if platform == "win32" then
    homedir ++ "/AppData/Roaming/notate/main.log"
  else
    homedir ++ "~/.config/notate/main.log"

/-- The fixed remediation text of lines 85-97. -/
def unauthorizedContent (platform homedir : String) : String :=
  "There is an issue with the SECRET_KEY not being in sync across the front/backend.\n\n" ++
  "Please try the following steps:\n" ++
  "1. Restart your PC\n" ++
  "2. If the issue persists, check your logs at:\n" ++
  "   " ++ logPath platform homedir ++ "\n\n" ++
  "3. Open a GitHub issue at https://github.com/CNTRLAI/notate and include your logs"

/-- The short-circuit envelope returned on an Unauthorized retrieval report
(lines 101-105). -/
def unauthorizedEnvelope (msgs : List Message) (platform homedir : String) :
    ChatResult :=
  { id := -1
    messages := msgs ++
      [{ role := "assistant", content := unauthorizedContent platform homedir }]
    title := "Need API Key" }

/-- The short-circuit envelope of lines 115-126 returned when the retrieval
step raises. -/
def vsErrorEnvelope (msgs : List Message) (e : JsError) : ChatResult :=
  { id := -1
    messages := msgs ++
      [{ role := "assistant"
         content := "Error in vectorstore query: " ++ errString e }]
    title := "Error in vectorstore query" }

/-- Minimal JSON string escaping used by JSON.stringify. -/
def jsonEscapeChar (c : Char) : String :=
  if c == '"' then "\\\""
  else if c == '\\' then "\\\\"
  else if c == '\n' then "\\n"
  else if c == '\r' then "\\r"
  else if c == '\t' then "\\t"
  else String.singleton c

def jsonQuote (s : String) : String :=
  "\"" ++ String.join (s.toList.map jsonEscapeChar) ++ "\""

def stringifyRItem (r : RItem) : String :=
  "\x7b\"content\":" ++ jsonQuote r.content ++
  ",\"metadata\":" ++ jsonQuote r.metadata ++ "\x7d"

/-- JSON.stringify of the retrieval payload (line 232 and line 256). -/
def stringifyRetrievalData (d : RetrievalData) : String :=
  "\x7b\"top_k\":" ++ toString d.top_k ++ ",\"results\":[" ++
  String.intercalate "," (d.results.map stringifyRItem) ++ "]\x7d"

/-- Line 258-259: the resolved title, falling back to the first 20
characters of the latest user message; the fallback expression only
evaluates when the current title is falsy. -/
def resolveFinalTitle (titleStr : String) (msgs : List Message) :
    Except JsError String :=
  if titleStr.isEmpty then
    match lastContent msgs with
    | .error e => .error e
    | .ok c => .ok (c.take 20)
  else .ok titleStr

/-- The final envelope assembly of lines 250-260 (spread of the provider
result, reasoning stamped onto assistant messages, serialized retrieval
payload, resolved title). -/
def assembleEnvelope (result : ProviderResponse) (data : Option RetrievalData)
    (titleStr : String) : ChatResult :=
  { id := result.id
    messages := result.messages.map fun m =>
      { m with reasoning_content :=
          if m.role == "assistant" then result.reasoning else none }
    title := titleStr
    content := some result.content
    reasoning := result.reasoning
    aborted := some result.aborted
    data_content := data.map stringifyRetrievalData
    reasoning_content :=
      match result.reasoning with
      | some r => if r.isEmpty then none else some r
      | none => none }

/-- Step 9: build the final envelope; only the title fallback can throw. -/
def stepEnvelope (req : ChatReq) (result : ProviderResponse)
    (data : Option RetrievalData) (titleStr : String) (tr : Trace) :
    Except JsError ChatResult × Trace :=
  match resolveFinalTitle titleStr req.messages with
  | .error e => (.error e, tr)
  | .ok t => (.ok (assembleEnvelope result data t), tr)

/-- The catch of lines 235-247: a foreign-key constraint error is swallowed
and the run continues to the envelope; everything else is rethrown. -/
def persistCatch (req : ChatReq) (result : ProviderResponse)
    (data : Option RetrievalData) (titleStr : String) (e : JsError)
    (tr : Trace) : Except JsError ChatResult × Trace :=
  if e.code == some "SQLITE_CONSTRAINT_FOREIGNKEY" then
    stepEnvelope req result data titleStr tr
  else (.error e, tr)

/-- Step 8, lines 211-247: record the user turn, the assistant turn
(capturing its rowid), and the retrieval payload if data is present. -/
def stepPersist (env : Env) (req : ChatReq) (convId : Int)
    (data : Option RetrievalData) (result : ProviderResponse)
    (titleStr : String) (tr : Trace) : Except JsError ChatResult × Trace :=
  match lastContent req.messages with
  | .error e => persistCatch req result data titleStr e tr
  | .ok c =>
    match env.addUserMessage
        ⟨req.activeUser.id, convId, "user", c, none, none⟩ with
    | .error e => persistCatch req result data titleStr e tr
    | .ok rid =>
      match env.addUserMessage
          ⟨req.activeUser.id, convId, "assistant", result.content,
            result.reasoning,
            if jsFalsyId req.collectionId then none else req.collectionId⟩ with
      | .error e =>
        persistCatch req result data titleStr e
          (tr ++ [Event.messageAdded req.activeUser.id convId "user" c none none rid])
      | .ok aid =>
        match data with
        | none =>
          stepEnvelope req result data titleStr
            (tr ++ [Event.messageAdded req.activeUser.id convId "user" c none none rid] ++
              [Event.messageAdded req.activeUser.id convId "assistant"
                result.content result.reasoning
                (if jsFalsyId req.collectionId then none else req.collectionId) aid])
        | some d =>
          match env.addRetrievedData aid (stringifyRetrievalData d) with
          | .error e =>
            persistCatch req result data titleStr e
              (tr ++ [Event.messageAdded req.activeUser.id convId "user" c none none rid] ++
                [Event.messageAdded req.activeUser.id convId "assistant"
                  result.content result.reasoning
                  (if jsFalsyId req.collectionId then none else req.collectionId) aid])
          | .ok _ =>
            stepEnvelope req result data titleStr
              (tr ++ [Event.messageAdded req.activeUser.id convId "user" c none none rid] ++
                [Event.messageAdded req.activeUser.id convId "assistant"
                  result.content result.reasoning
                  (if jsFalsyId req.collectionId then none else req.collectionId) aid] ++
                [Event.retrievedDataAdded aid d])

/-- Step 7, lines 196-210: default the temperature then invoke the selected
adapter. -/
def stepProvider (env : Env) (req : ChatReq) (settings : UserSettings)
    (convId : Int) (prompt : String) (tag : String)
    (data : Option RetrievalData) (titleStr : String) (tr : Trace) :
    Except JsError ChatResult × Trace :=
  match env.provider
      ⟨tag, req.messages, req.activeUser,
        (if jsFalsyNum settings.temperature then
          { settings with temperature := some (1 / 2 : Rat) }
        else settings),
        prompt, convId, titleStr, req.collectionId, data⟩ with
  | .error e => (.error e, tr)
  | .ok result => stepPersist env req convId data result titleStr tr

/-- Lines 193-195: when the title is still falsy, truncate the latest user
message to 20 characters. -/
def stepTitleFallback (env : Env) (req : ChatReq) (settings : UserSettings)
    (convId : Int) (prompt : String) (tag : String)
    (data : Option RetrievalData) (ct : Option String) (tr : Trace) :
    Except JsError ChatResult × Trace :=
  match ct with
  | some s =>
    if s.isEmpty then
      match lastContent req.messages with
      | .error e => (.error e, tr)
      | .ok c => stepProvider env req settings convId prompt tag data (c.take 20) tr
    else stepProvider env req settings convId prompt tag data s tr
  | none =>
    match lastContent req.messages with
    | .error e => (.error e, tr)
    | .ok c => stepProvider env req settings convId prompt tag data (c.take 20) tr

/-- Step 6, lines 156-192: resolve the adapter; no match raises. -/
def stepDispatch (env : Env) (req : ChatReq) (settings : UserSettings)
    (convId : Int) (prompt : String) (data : Option RetrievalData)
    (ct : Option String) (tr : Trace) : Except JsError ChatResult × Trace :=
  match lookupProvider settings.provider with
  | none => (.error noProviderError, tr)
  | some tag => stepTitleFallback env req settings convId prompt tag data ct tr

/-- Step 5, lines 145-155: the configured prompt if the row exists, else the
fixed default. -/
def stepPrompt (env : Env) (req : ChatReq) (settings : UserSettings)
    (convId : Int) (data : Option RetrievalData) (ct : Option String)
    (tr : Trace) : Except JsError ChatResult × Trace :=
  match env.getUserPrompt req.activeUser.id settings.promptId with
  | .error e => (.error e, tr)
  | .ok row =>
    let prompt :=
      match row with
      | some r => r.prompt
      | none => "You are a helpful assistant."
    stepDispatch env req settings convId prompt data ct tr

/-- Lines 137-143: create the conversation now (with the title as currently
resolved, possibly null) when no id exists yet. -/
def stepCreateConv (env : Env) (req : ChatReq) (settings : UserSettings)
    (data : Option RetrievalData) (ct : Option String) (tr : Trace) :
    Except JsError ChatResult × Trace :=
  if jsFalsyId req.conversationId then
    match env.addUserConversation req.activeUser.id ct with
    | .error e => (.error e, tr)
    | .ok row =>
      stepPrompt env req settings row.id data ct
        (tr ++ [Event.conversationCreated req.activeUser.id ct row.id])
  else
    stepPrompt env req settings (idVal req.conversationId) data ct tr

/-- Lines 130-135: when the title is still falsy, look up the stored
conversation title. -/
def stepStoredTitle (env : Env) (req : ChatReq) (settings : UserSettings)
    (data : Option RetrievalData) (ct : Option String) (tr : Trace) :
    Except JsError ChatResult × Trace :=
  if jsFalsyStr ct then
    match env.getUserConversationTitle req.conversationId req.activeUser.id with
    | .error e => (.error e, tr)
    | .ok t2 => stepCreateConv env req settings data t2 tr
  else stepCreateConv env req settings data ct tr

/-- Step 3, lines 61-128: when a collection id is set, query the vector
store inside a local try. An Unauthorized error report short-circuits with
the remediation envelope; a raised error (including the TypeError from
reading `.length` off a missing results array) short-circuits with the
vectorstore-error envelope; otherwise the payload is built with
top_k = results.length. -/
def stepRetrieval (env : Env) (req : ChatReq) (settings : UserSettings)
    (ct : Option String) (tr : Trace) : Except JsError ChatResult × Trace :=
  if jsFalsyId req.collectionId then
    stepStoredTitle env req settings none ct tr
  else
    match env.getCollectionName (idVal req.collectionId) with
    | .error e => (.error e, tr)
    | .ok coll =>
      match lastContent req.messages with
      | .error e => (.ok (vsErrorEnvelope req.messages e), tr)
      | .ok q =>
        match env.vectorstoreQuery
            ⟨q, req.activeUser.id, req.activeUser.name,
              idVal req.collectionId, coll.name⟩ with
        | .error e => (.ok (vsErrorEnvelope req.messages e), tr)
        | .ok vd =>
          if vd.status == "error" && vd.message == some "Unauthorized" then
            (.ok (unauthorizedEnvelope req.messages env.platform env.homedir), tr)
          else
            match vd.results with
            | none => (.ok (vsErrorEnvelope req.messages typeErrorUndefinedLength), tr)
            | some rs =>
              stepStoredTitle env req settings (some ⟨rs.length, rs⟩) ct tr

/-- Step 2, lines 53-59: generate a title when there is no conversation id
and no explicit title; a failure here propagates. -/
def stepTitleGen (env : Env) (req : ChatReq) (settings : UserSettings)
    (ct : Option String) (tr : Trace) : Except JsError ChatResult × Trace :=
  if jsFalsyId req.conversationId && ct.isNone then
    match lastContent req.messages with
    | .error e => (.error e, tr)
    | .ok c =>
      match env.generateTitle c req.activeUser.id settings.model with
      | .error e => (.error e, tr)
      | .ok t => stepRetrieval env req settings t tr
  else stepRetrieval env req settings ct tr

/-- The body of the outer try of chatRequest (lines 50-260). -/
def chatRequestInner (env : Env) (req : ChatReq) :
    Except JsError ChatResult × Trace :=
  match env.getUserSettings req.activeUser.id with
  | .error e => (.error e, [])
  | .ok settings =>
    stepTitleGen env req settings
      (if jsFalsyStr req.title then none else req.title) []

/-- chatRequest: the outer boundary of lines 261-276 converts any uncaught
error into the generic envelope. The second component is the trace of
durable writes performed by the run. -/
def chatRequest (env : Env) (req : ChatReq) : ChatResult × Trace :=
  match chatRequestInner env req with
  | (.ok r, tr) => (r, tr)
  | (.error _, tr) => (genericEnvelope req.messages, tr)

/-!
SubAgentRouter: the anthropicAgent function (second half of the source
file). The constrained model call is abstracted as an oracle yielding the
response blocks; JSON.parse and the zod schema check are modelled by an
executable JSON parser and a shape check. The uiSink pushes and the web
fetch attempt are recorded as agent events.
-/

structure WSMetadata where
  title : String
  source : String
  description : String
  author : String
  keywords : String
  ogImage : String
deriving DecidableEq, Repr

structure WebSearchResult where
  metadata : WSMetadata
  textContent : String
deriving DecidableEq, Repr

/-- The zod schema target: AgentActions = \x7b webUrl: number, url: string \x7d. -/
structure AgentActions where
  webUrl : Rat
  url : String
deriving DecidableEq, Repr

/-- One content block of the model response. -/
structure ABlock where
  type : String
  text : String
deriving DecidableEq, Repr

structure ARes where
  content : List ABlock
deriving DecidableEq, Repr

structure AgentResult where
  content : String
  webSearchResult : Option WebSearchResult
deriving DecidableEq, Repr

inductive AgentEvent where
  | chunk (s : String)
  | fetchAttempted (url : String)
deriving DecidableEq, Repr

/-- Collaborators of anthropicAgent: the model call (already resolved to a
response or an exception) and the webSearch tool. -/
structure AgentEnv where
  createResponse : Except JsError ARes
  webSearch : String → Except JsError WebSearchResult

/-- A JSON value as produced by JSON.parse. -/
inductive JVal where
  | null
  | bool (b : Bool)
  | num (q : Rat)
  | str (s : String)
  | arr (elems : List JVal)
  | obj (fields : List (String × JVal))

def jsonSyntaxError : JsError :=
  ⟨"SyntaxError", "Unexpected token in JSON", none⟩

def isJsonWs (c : Char) : Bool :=
  [' ', '\n', '\t', '\r'].contains c

def skipWs (cs : List Char) : List Char :=
  cs.dropWhile isJsonWs

/-- The value of one hexadecimal digit, off its code point. -/
def hexDigitVal (c : Char) : Option Nat :=
  let n := c.toNat
  if 48 ≤ n && n ≤ 57 then some (n - 48)
  else if 97 ≤ n && n ≤ 102 then some (n - 87)
  else if 65 ≤ n && n ≤ 70 then some (n - 55)
  else none

/-- Parse the body of a JSON string after the opening quote. -/
def parseStringBody (acc : String) : List Char → Option (String × List Char)
  | [] => none
  | '"' :: cs => some (acc, cs)
  | '\\' :: e :: cs =>
    if e == '"' then parseStringBody (acc.push '"') cs
    else if e == '\\' then parseStringBody (acc.push '\\') cs
    else if e == '/' then parseStringBody (acc.push '/') cs
    else if e == 'n' then parseStringBody (acc.push '\n') cs
    else if e == 't' then parseStringBody (acc.push '\t') cs
    else if e == 'r' then parseStringBody (acc.push '\r') cs
    else if e == 'b' then parseStringBody (acc.push (Char.ofNat 8)) cs
    else if e == 'f' then parseStringBody (acc.push (Char.ofNat 12)) cs
    else if e == 'u' then
      match cs with
      | h1 :: h2 :: h3 :: h4 :: cs2 =>
        match hexDigitVal h1, hexDigitVal h2, hexDigitVal h3, hexDigitVal h4 with
        | some a, some b, some c, some d =>
          parseStringBody (acc.push (Char.ofNat (((a * 16 + b) * 16 + c) * 16 + d))) cs2
        | _, _, _, _ => none
      | _ => none
    else none
  | '\\' :: [] => none
  | c :: cs => if c == '"' || c == '\\' then none else parseStringBody (acc.push c) cs

def isDigitChar (c : Char) : Bool :=
  48 ≤ c.toNat && c.toNat ≤ 57

/-- Split a character list into its leading run of decimal digits and the
remainder. -/
def splitDigits (cs : List Char) : List Char × List Char :=
  (cs.takeWhile isDigitChar, cs.dropWhile isDigitChar)

/-- Decimal value of a digit run, accumulator style. -/
def decDigitsVal : List Char → Nat → Nat
  | [], acc => acc
  | c :: cs, acc => decDigitsVal cs (10 * acc + (c.toNat - 48))

/-- Split an optional leading minus sign off a character list. -/
def splitMinus : List Char → Bool × List Char
  | '-' :: r => (true, r)
  | l => (false, l)

/-- Parse a JSON number (sign, integer part without leading zeros, optional
fraction, optional exponent) into a rational value. -/
def parseNumber (cs : List Char) : Option (Rat × List Char) :=
  let (neg, cs1) := splitMinus cs
  match splitDigits cs1 with
  | ([], _) => none
  | (ds, cs2) =>
    if ds.length > 1 && ds.head? == some '0' then none
    else
      let ipart : Rat := (decDigitsVal ds 0 : Nat)
      let fracStep : Option (Rat × List Char) :=
        match cs2 with
        | '.' :: r =>
          match splitDigits r with
          | ([], _) => none
          | (fs, cs3) =>
            some (ipart + (decDigitsVal fs 0 : Nat) / ((10 : Rat) ^ fs.length), cs3)
        | _ => some (ipart, cs2)
      match fracStep with
      | none => none
      | some (v, cs4) =>
        let expStep : Option (Rat × List Char) :=
          match cs4 with
          | 'e' :: r => some (1, r)
          | 'E' :: r => some (1, r)
          | _ => none
        match expStep with
        | none => some ((if neg then -v else v), cs4)
        | some (_, r) =>
          let (esign, r2) :=
            match r with
            | '-' :: rr => (true, rr)
            | '+' :: rr => (false, rr)
            | _ => (false, r)
          match splitDigits r2 with
          | ([], _) => none
          | (es, cs5) =>
            let e := decDigitsVal es 0
            let scaled := if esign then v / ((10 : Rat) ^ e) else v * ((10 : Rat) ^ e)
            some ((if neg then -scaled else scaled), cs5)

mutual

/-- Parse one JSON value; fuel bounds the nesting/step count. -/
def parseJVal (fuel : Nat) (cs : List Char) : Option (JVal × List Char) :=
  match fuel with
  | 0 => none
  | fuel + 1 =>
    match skipWs cs with
    | [] => none
    | c :: rest =>
      if c == '"' then
        match parseStringBody "" rest with
        | none => none
        | some (s, cs2) => some (.str s, cs2)
      else if c == '\x7b' then
        match skipWs rest with
        | '\x7d' :: cs2 => some (.obj [], cs2)
        | other => parseMembers fuel other []
      else if c == '[' then
        match skipWs rest with
        | ']' :: cs2 => some (.arr [], cs2)
        | other => parseElems fuel other []
      else if c == 't' then
        match rest with
        | 'r' :: 'u' :: 'e' :: cs2 => some (.bool true, cs2)
        | _ => none
      else if c == 'f' then
        match rest with
        | 'a' :: 'l' :: 's' :: 'e' :: cs2 => some (.bool false, cs2)
        | _ => none
      else if c == 'n' then
        match rest with
        | 'u' :: 'l' :: 'l' :: cs2 => some (.null, cs2)
        | _ => none
      else if c == '-' || isDigitChar c then
        match parseNumber (c :: rest) with
        | none => none
        | some (q, cs2) => some (.num q, cs2)
      else none

/-- Parse the members of a JSON object after its opening brace. -/
def parseMembers (fuel : Nat) (cs : List Char) (acc : List (String × JVal)) :
    Option (JVal × List Char) :=
  match fuel with
  | 0 => none
  | fuel + 1 =>
    match skipWs cs with
    | '"' :: rest =>
      match parseStringBody "" rest with
      | none => none
      | some (k, cs2) =>
        match skipWs cs2 with
        | ':' :: cs3 =>
          match parseJVal fuel cs3 with
          | none => none
          | some (v, cs4) =>
            match skipWs cs4 with
            | ',' :: cs5 => parseMembers fuel cs5 (acc ++ [(k, v)])
            | '\x7d' :: cs5 => some (.obj (acc ++ [(k, v)]), cs5)
            | _ => none
        | _ => none
    | _ => none

/-- Parse the elements of a JSON array after its opening bracket. -/
def parseElems (fuel : Nat) (cs : List Char) (acc : List JVal) :
    Option (JVal × List Char) :=
  match fuel with
  | 0 => none
  | fuel + 1 =>
    match parseJVal fuel cs with
    | none => none
    | some (v, cs2) =>
      match skipWs cs2 with
      | ',' :: cs3 => parseElems fuel cs3 (acc ++ [v])
      | ']' :: cs3 => some (.arr (acc ++ [v]), cs3)
      | _ => none

end

/-- JSON.parse: one value, nothing but whitespace after it. -/
def jsonParse (s : String) : Except JsError JVal :=
  match parseJVal (2 * s.length + 8) s.toList with
  | none => .error jsonSyntaxError
  | some (v, rest) =>
    match skipWs rest with
    | [] => .ok v
    | _ => .error jsonSyntaxError

/-- Duplicate keys in a JSON object: the last occurrence wins. -/
def lookupField (fields : List (String × JVal)) (k : String) : Option JVal :=
  fields.reverse.lookup k

/-- AgentActions.parse (zod): the value must be an object whose webUrl member
is a number and whose url member is a string. -/
def zodParseAgentActions (v : JVal) : Except JsError AgentActions :=
  match v with
  | .obj fields =>
    match lookupField fields "webUrl", lookupField fields "url" with
    | some (.num n), some (.str u) => .ok ⟨n, u⟩
    | _, _ => .error ⟨"ZodError", "invalid agent action shape", none⟩
  | _ => .error ⟨"ZodError", "invalid agent action shape", none⟩

/-- Line 346: reading block 0 of an empty content array throws. -/
def block0 (l : List ABlock) : Except JsError ABlock :=
  match l with
  | [] =>
    .error ⟨"TypeError",
      "Cannot read properties of undefined (reading \x27type\x27)", none⟩
  | b :: _ => .ok b

/-- Lines 346-347 inside the try: extract the response text, trim it, parse
it as JSON and validate it against the schema. -/
def agentActionsOfResp (resp : ARes) : Except JsError AgentActions :=
  match block0 resp.content with
  | .error e => .error e
  | .ok b =>
    let responseText := if b.type == "text" then b.text else ""
    match jsonParse (jsTrim responseText) with
    | .error e => .error e
    | .ok v => zodParseAgentActions v

/-- Lines 344-352: any parse or validation failure falls back to the safe
default \x7bwebUrl: 0, url: ""\x7d. -/
def computeAgentActions (resp : ARes) : AgentActions :=
  match agentActionsOfResp resp with
  | .ok a => a
  | .error _ => ⟨0, ""⟩

/-- anthropicAgent, lines 285-382. Returns the result (or the uncaught
exception of the model call) together with the ordered uiSink/fetch events. -/
def anthropicAgent (env : AgentEnv) : Except JsError AgentResult × List AgentEvent :=
  let ev0 := [AgentEvent.chunk "[Agent]: "]
  match env.createResponse with
  | .error e => (.error e, ev0)
  | .ok resp =>
    let agentActions := computeAgentActions resp
    if agentActions.webUrl == (1 : Rat) && !agentActions.url.isEmpty then
      match env.webSearch agentActions.url with
      | .ok r =>
        (.ok ⟨"Retrieved content from: " ++ agentActions.url, some r⟩,
          ev0 ++ [AgentEvent.fetchAttempted agentActions.url,
            AgentEvent.chunk ("[REASONING]: Visiting website: " ++ agentActions.url ++ "\n")])
      | .error _ =>
        (.ok ⟨"No web search was needed or the search failed", none⟩,
          ev0 ++ [AgentEvent.fetchAttempted agentActions.url,
            AgentEvent.chunk ("[REASONING]: Failed to visit website: " ++ agentActions.url ++ "\n")])
    else
      (.ok ⟨"No web search was needed or the search failed", none⟩, ev0)

/-!
Concrete instances used to exercise the embedding: a fully successful
environment and targeted variations of it.
-/

def user1 : User := ⟨1, "alice"⟩

def qMessage : Message :=
  ⟨"user", "Explain quantum entanglement in simple terms please", none⟩

def sampleProviderResponse : ProviderResponse :=
  ⟨7, [qMessage, ⟨"assistant", "answer", none⟩], "t", "answer", none, false⟩

def sampleRItem : RItem := ⟨"doc", "meta"⟩

def sampleData : RetrievalData := ⟨1, [sampleRItem]⟩

/-- An environment in which every collaborator succeeds. -/
def happyEnv : Env :=
  { platform := "darwin"
    homedir := "/Users/u"
    getUserSettings := fun _ => .ok ⟨some "Anthropic", "m", none, none⟩
    generateTitle := fun _ _ _ => .ok (some "Quantum Basics")
    getCollectionName := fun _ => .ok ⟨"coll"⟩
    vectorstoreQuery := fun _ => .ok ⟨"success", none, some [sampleRItem]⟩
    getUserConversationTitle := fun _ _ => .ok none
    addUserConversation := fun _ _ => .ok ⟨9⟩
    getUserPrompt := fun _ _ => .ok none
    provider := fun _ => .ok sampleProviderResponse
    addUserMessage := fun a => .ok (if a.role == "user" then 100 else 101)
    addRetrievedData := fun _ _ => .ok () }

/-- New conversation, no explicit title, no collection. -/
def req5 : ChatReq := ⟨[qMessage], user1, none, none, none⟩

/-- New conversation, no explicit title, collection 7 set. -/
def happyReq : ChatReq := ⟨[qMessage], user1, none, none, some 7⟩

/-- Existing conversation 3 with an explicit title, no collection. -/
def reqP : ChatReq := ⟨[qMessage], user1, some 3, some "My Chat", none⟩

/-- Existing conversation 3 with an explicit title and collection 7. -/
def reqP10 : ChatReq := ⟨[qMessage], user1, some 3, some "My Chat", some 7⟩

/-- Modelled from the spec: the conversation title generator itself
(generateTitle.js) is not part of the sources; per the collaborator
interface it maps (lastUserText, userId, model) to a title, and a generator
that is unavailable yields no title, which the orchestrator then replaces
through the stored-title lookup or the 20-character truncation rule. -/
def unavailableTitleGenerator : String → Int → String → Except JsError (Option String) :=
  fun _ _ _ => .ok none

/-- The title generator yields nothing (resolves with null). -/
def env5b : Env := { happyEnv with generateTitle := unavailableTitleGenerator }

def vsBoom : JsError := ⟨"Error", "connect ECONNREFUSED 127.0.0.1:47372", none⟩

/-- Unrecognized provider key and a throwing vector store. -/
def envC1 : Env :=
  { happyEnv with
    getUserSettings := fun _ => .ok ⟨some "nope", "m", none, none⟩
    vectorstoreQuery := fun _ => .error vsBoom }

def reqC1 : ChatReq := ⟨[qMessage], user1, none, none, some 5⟩

/-- The vector store reports Unauthorized. -/
def envC2 : Env :=
  { happyEnv with
    vectorstoreQuery := fun _ => .ok ⟨"error", some "Unauthorized", none⟩ }

/-- The vector store call throws. -/
def envC3a : Env :=
  { happyEnv with vectorstoreQuery := fun _ => .error vsBoom }

/-- The vector store reports a generic error (no results array). -/
def envC3b : Env :=
  { happyEnv with
    vectorstoreQuery := fun _ => .ok ⟨"error", some "some backend failure", none⟩ }

def fkError : JsError :=
  ⟨"SqliteError", "FOREIGN KEY constraint failed",
    some "SQLITE_CONSTRAINT_FOREIGNKEY"⟩

def busyError : JsError :=
  ⟨"SqliteError", "database is locked", some "SQLITE_BUSY"⟩

/-- The assistant-turn insert violates referential integrity. -/
def envC9a : Env :=
  { happyEnv with
    addUserMessage := fun a =>
      if a.role == "assistant" then .error fkError else .ok 100 }

/-- The assistant-turn insert fails with a non-FK storage error. -/
def envC9b : Env :=
  { happyEnv with
    addUserMessage := fun a =>
      if a.role == "assistant" then .error busyError else .ok 100 }

/-- The user-turn insert violates referential integrity. -/
def envC10 : Env :=
  { happyEnv with
    addUserMessage := fun a =>
      if a.role == "user" then .error fkError else .ok 101 }

/-- Sub-agent: backend response wrapped in prose (invalid JSON overall). -/
def respBad : ARes :=
  ⟨[⟨"text", "Sure! \x7b\"webUrl\":1,\"url\":\"https://example.com\"\x7d"⟩]⟩

/-- Sub-agent: exactly the required JSON shape. -/
def respGood : ARes :=
  ⟨[⟨"text", "\x7b\"webUrl\":1,\"url\":\"https://example.com\"\x7d"⟩]⟩

def sampleWS : WebSearchResult :=
  ⟨⟨"t", "s", "d", "a", "k", "i"⟩, "body text"⟩

/-- A web fetch that always succeeds. -/
def wsOk : String → Except JsError WebSearchResult := fun _ => .ok sampleWS

def fetchFailError : JsError := ⟨"Error", "fetch failed", none⟩

/-- A web fetch that always fails. -/
def wsFail : String → Except JsError WebSearchResult :=
  fun _ => .error fetchFailError

deriving instance DecidableEq for Except

/-- Invariant over a trace: every recorded retrieval payload has top_k equal
to its result count. -/
def traceInv (tr : Trace) : Prop :=
  ∀ mid d, Event.retrievedDataAdded mid d ∈ tr → d.top_k = d.results.length

/-- The same invariant over the optional payload flowing through the steps. -/
def dataInv : Option RetrievalData → Prop
  | none => True
  | some d => d.top_k = d.results.length

/-- Settings with an unrecognized provider key and no collection involved. -/
def envNope : Env :=
  { happyEnv with getUserSettings := fun _ => .ok ⟨some "nope", "m", none, none⟩ }

set_option maxRecDepth 8000

theorem traceInv_nil : traceInv [] := by
  intro mid d h
  cases h

theorem traceInv_append (tr tl : Trace) (h1 : traceInv tr) (h2 : traceInv tl) :
    traceInv (tr ++ tl) := by
  intro mid d hm
  rcases List.mem_append.mp hm with h | h
  · exact h1 mid d h
  · exact h2 mid d h

theorem traceInv_single_msg (u cid : Int) (role ct : String)
    (rsn : Option String) (coll : Option Int) (rid : Int) :
    traceInv [Event.messageAdded u cid role ct rsn coll rid] := by
  intro mid d h
  simp at h

theorem traceInv_single_conv (u : Int) (t : Option String) (n : Int) :
    traceInv [Event.conversationCreated u t n] := by
  intro mid d h
  simp at h

theorem traceInv_single_ret (mid : Int) (d : RetrievalData)
    (h : d.top_k = d.results.length) :
    traceInv [Event.retrievedDataAdded mid d] := by
  intro m x hm
  simp at hm
  rw [hm.2]
  exact h

theorem stepEnvelope_snd (req : ChatReq) (result : ProviderResponse)
    (data : Option RetrievalData) (titleStr : String) (tr : Trace) :
    (stepEnvelope req result data titleStr tr).2 = tr := by
  unfold stepEnvelope
  split <;> rfl

theorem persistCatch_snd (req : ChatReq) (result : ProviderResponse)
    (data : Option RetrievalData) (titleStr : String) (e : JsError) (tr : Trace) :
    (persistCatch req result data titleStr e tr).2 = tr := by
  unfold persistCatch
  split
  · exact stepEnvelope_snd req result data titleStr tr
  · rfl

theorem stepPersist_trace (env : Env) (req : ChatReq) (convId : Int)
    (data : Option RetrievalData) (result : ProviderResponse)
    (titleStr : String) (tr : Trace) (hD : dataInv data) :
    ∃ tl, (stepPersist env req convId data result titleStr tr).2 = tr ++ tl ∧
      traceInv tl := by
  unfold stepPersist
  split
  next e =>
    exact ⟨[], by rw [persistCatch_snd, List.append_nil], traceInv_nil⟩
  next c hc =>
    split
    next e =>
      exact ⟨[], by rw [persistCatch_snd, List.append_nil], traceInv_nil⟩
    next rid hrid =>
      split
      next e he =>
        refine ⟨[Event.messageAdded req.activeUser.id convId "user" c none none rid],
          ?_, traceInv_single_msg _ _ _ _ _ _ _⟩
        rw [persistCatch_snd]
      next aid haid =>
        split
        next =>
          refine ⟨[Event.messageAdded req.activeUser.id convId "user" c none none rid,
            Event.messageAdded req.activeUser.id convId "assistant"
              result.content result.reasoning
              (if jsFalsyId req.collectionId then none else req.collectionId) aid], ?_, ?_⟩
          · rw [stepEnvelope_snd, List.append_assoc]
            rfl
          · exact traceInv_append _ _ (traceInv_single_msg _ _ _ _ _ _ _)
              (traceInv_single_msg _ _ _ _ _ _ _)
        next d =>
          split
          next e he2 =>
            refine ⟨[Event.messageAdded req.activeUser.id convId "user" c none none rid,
              Event.messageAdded req.activeUser.id convId "assistant"
                result.content result.reasoning
                (if jsFalsyId req.collectionId then none else req.collectionId) aid], ?_, ?_⟩
            · rw [persistCatch_snd, List.append_assoc]
              rfl
            · exact traceInv_append _ _ (traceInv_single_msg _ _ _ _ _ _ _)
                (traceInv_single_msg _ _ _ _ _ _ _)
          next u hu =>
            refine ⟨[Event.messageAdded req.activeUser.id convId "user" c none none rid,
              Event.messageAdded req.activeUser.id convId "assistant"
                result.content result.reasoning
                (if jsFalsyId req.collectionId then none else req.collectionId) aid,
              Event.retrievedDataAdded aid d], ?_, ?_⟩
            · rw [stepEnvelope_snd, List.append_assoc, List.append_assoc]
              rfl
            · refine traceInv_append _ _ (traceInv_single_msg _ _ _ _ _ _ _) ?_
              refine traceInv_append _ _ (traceInv_single_msg _ _ _ _ _ _ _) ?_
              exact traceInv_single_ret aid d hD

theorem dataInv_none : dataInv none := trivial

theorem dataInv_mk (rs : List RItem) : dataInv (some ⟨rs.length, rs⟩) := rfl

theorem stepProvider_trace (env : Env) (req : ChatReq) (settings : UserSettings)
    (convId : Int) (prompt tag : String) (data : Option RetrievalData)
    (titleStr : String) (tr : Trace) (hD : dataInv data) :
    ∃ tl, (stepProvider env req settings convId prompt tag data titleStr tr).2 =
      tr ++ tl ∧ traceInv tl := by
  unfold stepProvider
  split
  next e he => exact ⟨[], by rw [List.append_nil], traceInv_nil⟩
  next r hr => exact stepPersist_trace env req convId data r titleStr tr hD

theorem stepTitleFallback_trace (env : Env) (req : ChatReq)
    (settings : UserSettings) (convId : Int) (prompt tag : String)
    (data : Option RetrievalData) (ct : Option String) (tr : Trace)
    (hD : dataInv data) :
    ∃ tl, (stepTitleFallback env req settings convId prompt tag data ct tr).2 =
      tr ++ tl ∧ traceInv tl := by
  unfold stepTitleFallback
  split
  next s0 =>
    split
    · split
      next e he => exact ⟨[], by rw [List.append_nil], traceInv_nil⟩
      next c hc => exact stepProvider_trace env req settings convId prompt tag data _ tr hD
    · exact stepProvider_trace env req settings convId prompt tag data s0 tr hD
  next =>
    split
    next e he => exact ⟨[], by rw [List.append_nil], traceInv_nil⟩
    next c hc => exact stepProvider_trace env req settings convId prompt tag data _ tr hD

theorem stepDispatch_trace (env : Env) (req : ChatReq) (settings : UserSettings)
    (convId : Int) (prompt : String) (data : Option RetrievalData)
    (ct : Option String) (tr : Trace) (hD : dataInv data) :
    ∃ tl, (stepDispatch env req settings convId prompt data ct tr).2 =
      tr ++ tl ∧ traceInv tl := by
  unfold stepDispatch
  split
  next => exact ⟨[], by rw [List.append_nil], traceInv_nil⟩
  next tag htag => exact stepTitleFallback_trace env req settings convId prompt tag data ct tr hD

theorem stepPrompt_trace (env : Env) (req : ChatReq) (settings : UserSettings)
    (convId : Int) (data : Option RetrievalData) (ct : Option String)
    (tr : Trace) (hD : dataInv data) :
    ∃ tl, (stepPrompt env req settings convId data ct tr).2 = tr ++ tl ∧
      traceInv tl := by
  unfold stepPrompt
  split
  next e he => exact ⟨[], by rw [List.append_nil], traceInv_nil⟩
  next row hrow =>
    exact stepDispatch_trace env req settings convId _ data ct tr hD

theorem stepCreateConv_trace (env : Env) (req : ChatReq)
    (settings : UserSettings) (data : Option RetrievalData) (ct : Option String)
    (tr : Trace) (hD : dataInv data) :
    ∃ tl, (stepCreateConv env req settings data ct tr).2 = tr ++ tl ∧
      traceInv tl := by
  unfold stepCreateConv
  split
  · split
    next e he => exact ⟨[], by rw [List.append_nil], traceInv_nil⟩
    next row hrow =>
      obtain ⟨tl, htl, hinv⟩ := stepPrompt_trace env req settings row.id data ct
        (tr ++ [Event.conversationCreated req.activeUser.id ct row.id]) hD
      refine ⟨Event.conversationCreated req.activeUser.id ct row.id :: tl, ?_, ?_⟩
      · rw [htl, List.append_assoc]
        rfl
      · exact traceInv_append [Event.conversationCreated req.activeUser.id ct row.id]
          tl (traceInv_single_conv _ _ _) hinv
  · exact stepPrompt_trace env req settings _ data ct tr hD

theorem stepStoredTitle_trace (env : Env) (req : ChatReq)
    (settings : UserSettings) (data : Option RetrievalData) (ct : Option String)
    (tr : Trace) (hD : dataInv data) :
    ∃ tl, (stepStoredTitle env req settings data ct tr).2 = tr ++ tl ∧
      traceInv tl := by
  unfold stepStoredTitle
  split
  · split
    next e he => exact ⟨[], by rw [List.append_nil], traceInv_nil⟩
    next t2 ht2 => exact stepCreateConv_trace env req settings data t2 tr hD
  · exact stepCreateConv_trace env req settings data ct tr hD

theorem stepRetrieval_trace (env : Env) (req : ChatReq)
    (settings : UserSettings) (ct : Option String) (tr : Trace) :
    ∃ tl, (stepRetrieval env req settings ct tr).2 = tr ++ tl ∧ traceInv tl := by
  unfold stepRetrieval
  split
  · exact stepStoredTitle_trace env req settings none ct tr dataInv_none
  · split
    next e he => exact ⟨[], by rw [List.append_nil], traceInv_nil⟩
    next coll hcoll =>
      split
      next e he => exact ⟨[], by rw [List.append_nil], traceInv_nil⟩
      next q hq =>
        split
        next e he => exact ⟨[], by rw [List.append_nil], traceInv_nil⟩
        next vd hvd =>
          split
          · exact ⟨[], by rw [List.append_nil], traceInv_nil⟩
          · split
            next => exact ⟨[], by rw [List.append_nil], traceInv_nil⟩
            next rs hrs =>
              exact stepStoredTitle_trace env req settings
                (some ⟨rs.length, rs⟩) ct tr (dataInv_mk rs)

theorem stepTitleGen_trace (env : Env) (req : ChatReq)
    (settings : UserSettings) (ct : Option String) (tr : Trace) :
    ∃ tl, (stepTitleGen env req settings ct tr).2 = tr ++ tl ∧ traceInv tl := by
  unfold stepTitleGen
  split
  · split
    next e he => exact ⟨[], by rw [List.append_nil], traceInv_nil⟩
    next c hc =>
      split
      next e he => exact ⟨[], by rw [List.append_nil], traceInv_nil⟩
      next t ht => exact stepRetrieval_trace env req settings t tr
  · exact stepRetrieval_trace env req settings ct tr

theorem chatRequestInner_trace (env : Env) (req : ChatReq) :
    (fun p => ∃ tl, p.2 = tl ∧ traceInv tl) (chatRequestInner env req) := by
  unfold chatRequestInner
  split
  next e he => exact ⟨[], rfl, traceInv_nil⟩
  next settings hsettings =>
    obtain ⟨tl, htl, hinv⟩ := stepTitleGen_trace env req settings
      (if jsFalsyStr req.title then none else req.title) []
    exact ⟨tl, by rw [htl]; rfl, hinv⟩

theorem chatRequest_traceInv (env : Env) (req : ChatReq) :
    traceInv (chatRequest env req).2 := by
  obtain ⟨tl, htl, hinv⟩ := chatRequestInner_trace env req
  unfold chatRequest
  split
  next r tr hmatch =>
    rw [hmatch] at htl
    show traceInv tr
    have htr : tr = tl := htl
    rw [htr]
    exact hinv
  next e tr hmatch =>
    rw [hmatch] at htl
    show traceInv tr
    have htr : tr = tl := htl
    rw [htr]
    exact hinv

theorem chatRequest_snd (env : Env) (req : ChatReq) :
    (chatRequest env req).2 = (chatRequestInner env req).2 := by
  unfold chatRequest
  split
  next r tr hmatch => rw [hmatch]
  next e tr hmatch => rw [hmatch]

/-- C4: every retrieval payload recorded by any run of chatRequest has top_k
equal to the number of elements in its results sequence: the payload is only
ever built as top_k = results.length from the store response, with no
independent top-k parameter. -/
theorem c4_top_k_equals_results_length (env : Env) (req : ChatReq) (mid : Int)
    (d : RetrievalData)
    (h : Event.retrievedDataAdded mid d ∈ (chatRequest env req).2) :
    d.top_k = d.results.length :=
  chatRequest_traceInv env req mid d h

theorem c4_witness :
    Event.retrievedDataAdded 101 sampleData ∈ (chatRequest happyEnv happyReq).2 ∧
    sampleData.top_k = sampleData.results.length :=
  ⟨by decide, c4_top_k_equals_results_length happyEnv happyReq 101 sampleData (by decide)⟩

theorem noProv_stepPrompt (env : Env) (req : ChatReq) (s : UserSettings)
    (convId : Int) (data : Option RetrievalData) (ct : Option String)
    (tr : Trace) (hp : lookupProvider s.provider = none) :
    ∃ e, (stepPrompt env req s convId data ct tr).1 = Except.error e := by
  unfold stepPrompt
  split
  next e he => exact ⟨e, rfl⟩
  next row hrow =>
    unfold stepDispatch
    rw [hp]
    exact ⟨noProviderError, rfl⟩

theorem noProv_stepCreateConv (env : Env) (req : ChatReq) (s : UserSettings)
    (data : Option RetrievalData) (ct : Option String) (tr : Trace)
    (hp : lookupProvider s.provider = none) :
    ∃ e, (stepCreateConv env req s data ct tr).1 = Except.error e := by
  unfold stepCreateConv
  split
  · split
    next e he => exact ⟨e, rfl⟩
    next row hrow => exact noProv_stepPrompt env req s row.id data ct _ hp
  · exact noProv_stepPrompt env req s _ data ct tr hp

theorem noProv_stepStoredTitle (env : Env) (req : ChatReq) (s : UserSettings)
    (data : Option RetrievalData) (ct : Option String) (tr : Trace)
    (hp : lookupProvider s.provider = none) :
    ∃ e, (stepStoredTitle env req s data ct tr).1 = Except.error e := by
  unfold stepStoredTitle
  split
  · split
    next e he => exact ⟨e, rfl⟩
    next t2 ht2 => exact noProv_stepCreateConv env req s data t2 tr hp
  · exact noProv_stepCreateConv env req s data ct tr hp

theorem noProv_stepRetrieval (env : Env) (req : ChatReq) (s : UserSettings)
    (ct : Option String) (tr : Trace)
    (hcid : jsFalsyId req.collectionId = true)
    (hp : lookupProvider s.provider = none) :
    ∃ e, (stepRetrieval env req s ct tr).1 = Except.error e := by
  unfold stepRetrieval
  split
  next h => exact noProv_stepStoredTitle env req s none ct tr hp
  next h => exact absurd hcid h

theorem noProv_stepTitleGen (env : Env) (req : ChatReq) (s : UserSettings)
    (ct : Option String) (tr : Trace)
    (hcid : jsFalsyId req.collectionId = true)
    (hp : lookupProvider s.provider = none) :
    ∃ e, (stepTitleGen env req s ct tr).1 = Except.error e := by
  unfold stepTitleGen
  split
  · split
    next e he => exact ⟨e, rfl⟩
    next c hc =>
      split
      next e he => exact ⟨e, rfl⟩
      next t htg => exact noProv_stepRetrieval env req s t tr hcid hp
  · exact noProv_stepRetrieval env req s ct tr hcid hp

theorem noProv_inner (env : Env) (req : ChatReq) (s : UserSettings)
    (hs : env.getUserSettings req.activeUser.id = Except.ok s)
    (hcid : jsFalsyId req.collectionId = true)
    (hp : lookupProvider s.provider = none) :
    ∃ e, (chatRequestInner env req).1 = Except.error e := by
  unfold chatRequestInner
  simp only [hs]
  exact noProv_stepTitleGen env req s _ [] hcid hp

theorem inner_error_generic (env : Env) (req : ChatReq)
    (h : ∃ e, (chatRequestInner env req).1 = Except.error e) :
    (chatRequest env req).1 = genericEnvelope req.messages := by
  obtain ⟨e, he⟩ := h
  unfold chatRequest
  split
  next r tr hmatch =>
    rw [hmatch] at he
    simp at he
  next e2 tr hmatch => rfl

/-- C1 (amended): with an unrecognized provider key the run returns the
generic envelope whenever the retrieval step cannot short-circuit first (in
particular for every request without a collection id), and any uncaught
error at any step produces that same generic envelope. -/
theorem c1_unrecognized_provider_generic_envelope :
    (∀ (env : Env) (req : ChatReq) (s : UserSettings),
      jsFalsyId req.collectionId = true →
      env.getUserSettings req.activeUser.id = Except.ok s →
      lookupProvider s.provider = none →
      (chatRequest env req).1 = genericEnvelope req.messages) ∧
    (∀ (env : Env) (req : ChatReq),
      (∃ e, (chatRequestInner env req).1 = Except.error e) →
      (chatRequest env req).1 = genericEnvelope req.messages) := by
  constructor
  · intro env req s hcid hs hp
    exact inner_error_generic env req (noProv_inner env req s hs hcid hp)
  · intro env req h
    exact inner_error_generic env req h

theorem c1_witness :
    jsFalsyId req5.collectionId = true ∧
    envNope.getUserSettings req5.activeUser.id =
      Except.ok ⟨some "nope", "m", none, none⟩ ∧
    (chatRequest envNope req5).1 = genericEnvelope req5.messages :=
  ⟨by decide, by decide,
    c1_unrecognized_provider_generic_envelope.1 envNope req5
      ⟨some "nope", "m", none, none⟩ (by decide) (by decide) (by decide)⟩

/-- C1 counterexample: a request whose resolved settings hold the
unrecognized provider key "nope" but whose collection-backed retrieval step
throws is answered with the vectorstore-error envelope, not the "Need API
Key" envelope the claim promises for every such request. -/
theorem c1_counterexample :
    envC1.getUserSettings reqC1.activeUser.id =
      Except.ok ⟨some "nope", "m", none, none⟩ ∧
    lookupProvider (some "nope") = none ∧
    (chatRequest envC1 reqC1).1.title = "Error in vectorstore query" ∧
    (chatRequest envC1 reqC1).1.title ≠ "Need API Key" := by decide

theorem reach_retrieval (env : Env) (req : ChatReq) (s : UserSettings) (q : String)
    (hs : env.getUserSettings req.activeUser.id = .ok s)
    (hm : lastContent req.messages = .ok q)
    (hgen : ∀ c, ∃ t, env.generateTitle c req.activeUser.id s.model = .ok t) :
    ∃ ct, chatRequestInner env req = stepRetrieval env req s ct [] := by
  unfold chatRequestInner
  simp only [hs]
  unfold stepTitleGen
  cases hb : (jsFalsyId req.conversationId &&
      (if jsFalsyStr req.title then none else req.title).isNone) with
  | false =>
    simp only [hb, Bool.false_eq_true, if_false]
    exact ⟨_, rfl⟩
  | true =>
    simp only [hb, if_true]
    obtain ⟨t, ht⟩ := hgen q
    simp only [hm, ht]
    exact ⟨t, rfl⟩

/-- C2: when the vector store reports Unauthorized for a request with a
collection id, chatRequest short-circuits with the fixed remediation
envelope (sentinel id -1, title "Need API Key", platform-dependent log
path), and no conversation row is created. -/
theorem c2_unauthorized_short_circuit (env : Env) (req : ChatReq)
    (s : UserSettings) (q nm : String) (vd : VSResponse)
    (hcid : jsFalsyId req.collectionId = false)
    (hs : env.getUserSettings req.activeUser.id = .ok s)
    (hm : lastContent req.messages = .ok q)
    (hgen : ∀ c, ∃ t, env.generateTitle c req.activeUser.id s.model = .ok t)
    (hcn : env.getCollectionName (idVal req.collectionId) = .ok ⟨nm⟩)
    (hvq : env.vectorstoreQuery
        ⟨q, req.activeUser.id, req.activeUser.name,
          idVal req.collectionId, nm⟩ = .ok vd)
    (hst : vd.status = "error") (hmsg : vd.message = some "Unauthorized") :
    chatRequest env req =
      (unauthorizedEnvelope req.messages env.platform env.homedir, []) ∧
    ∀ u t n, Event.conversationCreated u t n ∉ (chatRequest env req).2 := by
  obtain ⟨ct, hreach⟩ := reach_retrieval env req s q hs hm hgen
  have hmain : chatRequest env req =
      (unauthorizedEnvelope req.messages env.platform env.homedir, []) := by
    unfold chatRequest
    rw [hreach]
    unfold stepRetrieval
    simp only [hcid, Bool.false_eq_true, if_false, hcn, hm, hvq, hst, hmsg]
    simp
  refine ⟨hmain, ?_⟩
  intro u t n hmem
  rw [hmain] at hmem
  simp at hmem

theorem c2_witness :
    chatRequest envC2 happyReq =
      (unauthorizedEnvelope [qMessage] envC2.platform envC2.homedir, []) :=
  (c2_unauthorized_short_circuit envC2 happyReq
    ⟨some "Anthropic", "m", none, none⟩
    "Explain quantum entanglement in simple terms please" "coll"
    ⟨"error", some "Unauthorized", none⟩
    (by decide) rfl (by decide)
    (fun c => ⟨some "Quantum Basics", rfl⟩) rfl rfl rfl rfl).1

/-- C3: when the collection-backed retrieval step reports a generic
(non-Unauthorized) error — the call throws, or it returns an error status
without a results array so reading its length throws — chatRequest
short-circuits with sentinel id -1, title "Error in vectorstore query", and
the original messages plus one synthetic assistant message containing the
stringified raised error. -/
theorem c3_generic_retrieval_error :
    (∀ (env : Env) (req : ChatReq) (s : UserSettings) (q nm : String)
      (e : JsError),
      jsFalsyId req.collectionId = false →
      env.getUserSettings req.activeUser.id = .ok s →
      lastContent req.messages = .ok q →
      (∀ c, ∃ t, env.generateTitle c req.activeUser.id s.model = .ok t) →
      env.getCollectionName (idVal req.collectionId) = .ok ⟨nm⟩ →
      env.vectorstoreQuery
        ⟨q, req.activeUser.id, req.activeUser.name,
          idVal req.collectionId, nm⟩ = .error e →
      chatRequest env req = (vsErrorEnvelope req.messages e, [])) ∧
    (∀ (env : Env) (req : ChatReq) (s : UserSettings) (q nm : String)
      (vd : VSResponse),
      jsFalsyId req.collectionId = false →
      env.getUserSettings req.activeUser.id = .ok s →
      lastContent req.messages = .ok q →
      (∀ c, ∃ t, env.generateTitle c req.activeUser.id s.model = .ok t) →
      env.getCollectionName (idVal req.collectionId) = .ok ⟨nm⟩ →
      env.vectorstoreQuery
        ⟨q, req.activeUser.id, req.activeUser.name,
          idVal req.collectionId, nm⟩ = .ok vd →
      vd.status = "error" → vd.message ≠ some "Unauthorized" →
      vd.results = none →
      chatRequest env req =
        (vsErrorEnvelope req.messages typeErrorUndefinedLength, [])) := by
  constructor
  · intro env req s q nm e hcid hs hm hgen hcn hvq
    obtain ⟨ct, hreach⟩ := reach_retrieval env req s q hs hm hgen
    unfold chatRequest
    rw [hreach]
    unfold stepRetrieval
    simp only [hcid, Bool.false_eq_true, if_false, hcn, hm, hvq]
  · intro env req s q nm vd hcid hs hm hgen hcn hvq hst hne hres
    obtain ⟨ct, hreach⟩ := reach_retrieval env req s q hs hm hgen
    have hb : (vd.message == some "Unauthorized") = false :=
      beq_eq_false_iff_ne.mpr hne
    unfold chatRequest
    rw [hreach]
    unfold stepRetrieval
    simp only [hcid, Bool.false_eq_true, if_false, hcn, hm, hvq, hst, hb,
      Bool.and_false, hres]

theorem c3_witness :
    chatRequest envC3a happyReq = (vsErrorEnvelope [qMessage] vsBoom, []) ∧
    chatRequest envC3b happyReq =
      (vsErrorEnvelope [qMessage] typeErrorUndefinedLength, []) :=
  ⟨c3_generic_retrieval_error.1 envC3a happyReq
      ⟨some "Anthropic", "m", none, none⟩
      "Explain quantum entanglement in simple terms please" "coll" vsBoom
      (by decide) rfl (by decide) (fun c => ⟨some "Quantum Basics", rfl⟩) rfl rfl,
    c3_generic_retrieval_error.2 envC3b happyReq
      ⟨some "Anthropic", "m", none, none⟩
      "Explain quantum entanglement in simple terms please" "coll"
      ⟨"error", some "some backend failure", none⟩
      (by decide) rfl (by decide) (fun c => ⟨some "Quantum Basics", rfl⟩) rfl rfl
      rfl (by decide) rfl⟩

/-- C5: with the quantum-entanglement message, no conversation id and no
explicit title, a working title generator returning "Quantum Basics" makes
the returned title "Quantum Basics"; a generator yielding nothing together
with no stored title makes the returned title the first 20 characters of
the latest user message. -/
theorem c5_title_resolution_precedence :
    (chatRequest happyEnv req5).1.title = "Quantum Basics" ∧
    (chatRequest env5b req5).1.title = "Explain quantum enta" :=
  ⟨by decide, by decide⟩

/-- C6 counterexample: with no conversation id, a title generator yielding
nothing and no stored title, the conversation row is created with a null
title while the 20-character truncation only shows up in the returned
envelope — so the row is not created with a non-empty resolved title. -/
theorem c6_counterexample :
    Event.conversationCreated 1 none 9 ∈ (chatRequest env5b req5).2 ∧
    (chatRequest env5b req5).1.title = "Explain quantum enta" := by decide

/-- C6 (amended): title generation and stored-title lookup do precede
conversation creation, but the truncation fallback does not: when both
yield nothing, the conversation row is created with a null title (the
truncation is applied only to the returned envelope afterwards). -/
theorem c6_conversation_created_before_truncation (env : Env) (req : ChatReq)
    (s : UserSettings) (q : String) (nid : Int)
    (hcv : jsFalsyId req.conversationId = true)
    (ht : jsFalsyStr req.title = true)
    (hs : env.getUserSettings req.activeUser.id = .ok s)
    (hm : lastContent req.messages = .ok q)
    (hgen : env.generateTitle q req.activeUser.id s.model = .ok none)
    (hcid : jsFalsyId req.collectionId = true)
    (hlook : env.getUserConversationTitle req.conversationId req.activeUser.id = .ok none)
    (hconv : env.addUserConversation req.activeUser.id none = .ok ⟨nid⟩) :
    Event.conversationCreated req.activeUser.id none nid ∈
      (chatRequest env req).2 := by
  have hinner : chatRequestInner env req =
      stepPrompt env req s nid none none
        [Event.conversationCreated req.activeUser.id none nid] := by
    unfold chatRequestInner
    simp only [hs]
    unfold stepTitleGen
    simp only [ht, eq_self_iff_true, if_true, Option.isNone_none, hcv,
      Bool.and_self]
    simp only [hm, hgen]
    unfold stepRetrieval
    simp only [hcid, eq_self_iff_true, if_true]
    unfold stepStoredTitle
    simp only [jsFalsyStr, if_true, hlook]
    unfold stepCreateConv
    simp only [hcv, eq_self_iff_true, if_true, hconv, List.nil_append]
  obtain ⟨tl, htl, _⟩ := stepPrompt_trace env req s nid none none
    [Event.conversationCreated req.activeUser.id none nid] dataInv_none
  rw [chatRequest_snd, hinner, htl]
  exact List.mem_append.mpr (Or.inl (List.mem_singleton.mpr rfl))

theorem c6_witness :
    Event.conversationCreated req5.activeUser.id none 9 ∈
      (chatRequest env5b req5).2 :=
  c6_conversation_created_before_truncation env5b req5
    ⟨some "Anthropic", "m", none, none⟩
    "Explain quantum entanglement in simple terms please" 9
    (by decide) (by decide) rfl (by decide) rfl (by decide) rfl rfl

/-- C7: the prose-wrapped backend response is not the exact required JSON
shape, so the router falls back to the safe default with no fetch attempt
and no exception; the exact JSON shape triggers a fetch attempt for the
given URL (under both a succeeding and a failing fetch collaborator). -/
theorem c7_strict_schema_parsing :
    anthropicAgent ⟨.ok respBad, wsOk⟩ =
      (.ok ⟨"No web search was needed or the search failed", none⟩,
        [AgentEvent.chunk "[Agent]: "]) ∧
    anthropicAgent ⟨.ok respBad, wsFail⟩ =
      (.ok ⟨"No web search was needed or the search failed", none⟩,
        [AgentEvent.chunk "[Agent]: "]) ∧
    AgentEvent.fetchAttempted "https://example.com" ∈
      (anthropicAgent ⟨.ok respGood, wsOk⟩).2 ∧
    AgentEvent.fetchAttempted "https://example.com" ∈
      (anthropicAgent ⟨.ok respGood, wsFail⟩).2 := by
  refine ⟨by decide, by decide, by decide, by decide⟩

/-- C8: when the agent decision is webUrl = 1 with a non-empty URL and the
fetch fails, anthropicAgent recovers locally: it pushes the informational
failure notice to the sink and returns the degraded content with a null web
search result, raising nothing. -/
theorem c8_fetch_failure_recovered (resp : ARes)
    (ws : String → Except JsError WebSearchResult) (url : String) (e : JsError)
    (hact : computeAgentActions resp = ⟨1, url⟩)
    (hurl : url.isEmpty = false)
    (hws : ws url = .error e) :
    anthropicAgent ⟨.ok resp, ws⟩ =
      (.ok ⟨"No web search was needed or the search failed", none⟩,
        [AgentEvent.chunk "[Agent]: ", AgentEvent.fetchAttempted url,
          AgentEvent.chunk
            ("[REASONING]: Failed to visit website: " ++ url ++ "\n")]) := by
  unfold anthropicAgent
  simp only [hact, hurl, hws, beq_self_eq_true, Bool.not_false, Bool.and_self,
    if_true]
  rfl

theorem c8_witness :
    computeAgentActions respGood = ⟨1, "https://example.com"⟩ ∧
    anthropicAgent ⟨.ok respGood, wsFail⟩ =
      (.ok ⟨"No web search was needed or the search failed", none⟩,
        [AgentEvent.chunk "[Agent]: ",
          AgentEvent.fetchAttempted "https://example.com",
          AgentEvent.chunk
            ("[REASONING]: Failed to visit website: https://example.com\n")]) :=
  ⟨by decide,
    c8_fetch_failure_recovered respGood wsFail "https://example.com"
      fetchFailError (by decide) (by decide) rfl⟩

theorem reach_storedTitle_existing (env : Env) (req : ChatReq)
    (s : UserSettings)
    (hcv : jsFalsyId req.conversationId = false)
    (hs : env.getUserSettings req.activeUser.id = .ok s) :
    chatRequestInner env req = stepRetrieval env req s
      (if jsFalsyStr req.title then none else req.title) [] := by
  unfold chatRequestInner
  simp only [hs]
  unfold stepTitleGen
  simp only [hcv, Bool.false_and, Bool.false_eq_true, if_false]

theorem persist_route (env : Env) (req : ChatReq) (s : UserSettings)
    (data : Option RetrievalData) (T tag : String) (r : ProviderResponse)
    (hTne : T.isEmpty = false)
    (hcv : jsFalsyId req.conversationId = false)
    (hpr : env.getUserPrompt req.activeUser.id s.promptId = .ok none)
    (hlp : lookupProvider s.provider = some tag)
    (hprov : env.provider
        ⟨tag, req.messages, req.activeUser,
          (if jsFalsyNum s.temperature then
            { s with temperature := some (1 / 2 : Rat) }
          else s),
          "You are a helpful assistant.", idVal req.conversationId, T,
          req.collectionId, data⟩ = .ok r)
    (tr : Trace) :
    stepStoredTitle env req s data (some T) tr =
      stepPersist env req (idVal req.conversationId) data r T tr := by
  unfold stepStoredTitle
  simp only [jsFalsyStr, hTne, Bool.false_eq_true, if_false]
  unfold stepCreateConv
  simp only [hcv, Bool.false_eq_true, if_false]
  unfold stepPrompt
  simp only [hpr]
  unfold stepDispatch
  simp only [hlp]
  unfold stepTitleFallback
  simp only [hTne, Bool.false_eq_true, if_false]
  unfold stepProvider
  simp only [hprov]

/-- C9: inside the persistence phase, a failure whose code marks a
referential-integrity violation is swallowed and the request still returns
the normal assembled envelope, while a failure of any other class
propagates to the outer boundary (surfacing as the generic envelope). -/
theorem c9_persistence_idempotency :
    (∀ (env : Env) (req : ChatReq) (s : UserSettings) (T tag q : String)
      (r : ProviderResponse) (rid : Int) (eFK : JsError),
      req.title = some T →
      T.isEmpty = false →
      jsFalsyId req.conversationId = false →
      jsFalsyId req.collectionId = true →
      env.getUserSettings req.activeUser.id = .ok s →
      env.getUserPrompt req.activeUser.id s.promptId = .ok none →
      lookupProvider s.provider = some tag →
      env.provider
        ⟨tag, req.messages, req.activeUser,
          (if jsFalsyNum s.temperature then
            { s with temperature := some (1 / 2 : Rat) }
          else s),
          "You are a helpful assistant.", idVal req.conversationId, T,
          req.collectionId, none⟩ = .ok r →
      lastContent req.messages = .ok q →
      env.addUserMessage
        ⟨req.activeUser.id, idVal req.conversationId, "user", q, none, none⟩ =
        .ok rid →
      env.addUserMessage
        ⟨req.activeUser.id, idVal req.conversationId, "assistant", r.content,
          r.reasoning, none⟩ = .error eFK →
      eFK.code = some "SQLITE_CONSTRAINT_FOREIGNKEY" →
      chatRequest env req = (assembleEnvelope r none T,
        [Event.messageAdded req.activeUser.id (idVal req.conversationId)
          "user" q none none rid])) ∧
    (∀ (env : Env) (req : ChatReq) (s : UserSettings) (T tag q : String)
      (r : ProviderResponse) (rid : Int) (eO : JsError),
      req.title = some T →
      T.isEmpty = false →
      jsFalsyId req.conversationId = false →
      jsFalsyId req.collectionId = true →
      env.getUserSettings req.activeUser.id = .ok s →
      env.getUserPrompt req.activeUser.id s.promptId = .ok none →
      lookupProvider s.provider = some tag →
      env.provider
        ⟨tag, req.messages, req.activeUser,
          (if jsFalsyNum s.temperature then
            { s with temperature := some (1 / 2 : Rat) }
          else s),
          "You are a helpful assistant.", idVal req.conversationId, T,
          req.collectionId, none⟩ = .ok r →
      lastContent req.messages = .ok q →
      env.addUserMessage
        ⟨req.activeUser.id, idVal req.conversationId, "user", q, none, none⟩ =
        .ok rid →
      env.addUserMessage
        ⟨req.activeUser.id, idVal req.conversationId, "assistant", r.content,
          r.reasoning, none⟩ = .error eO →
      eO.code ≠ some "SQLITE_CONSTRAINT_FOREIGNKEY" →
      chatRequest env req = (genericEnvelope req.messages,
        [Event.messageAdded req.activeUser.id (idVal req.conversationId)
          "user" q none none rid])) := by
  constructor
  · intro env req s T tag q r rid eFK ht hTne hcv hcid hs hpr hlp hprov hm hu ha hefk
    have h1 := reach_storedTitle_existing env req s hcv hs
    simp only [ht, jsFalsyStr, hTne, Bool.false_eq_true, if_false] at h1
    unfold chatRequest
    rw [h1]
    unfold stepRetrieval
    simp only [hcid, eq_self_iff_true, if_true]
    rw [persist_route env req s none T tag r hTne hcv hpr hlp hprov []]
    unfold stepPersist
    simp only [hm, hu, hcid, eq_self_iff_true, if_true, ha]
    unfold persistCatch
    simp only [hefk, beq_self_eq_true, if_true]
    unfold stepEnvelope resolveFinalTitle
    simp only [hTne, Bool.false_eq_true, if_false, List.nil_append]
  · intro env req s T tag q r rid eO ht hTne hcv hcid hs hpr hlp hprov hm hu ha hne
    have h1 := reach_storedTitle_existing env req s hcv hs
    simp only [ht, jsFalsyStr, hTne, Bool.false_eq_true, if_false] at h1
    have hb : (eO.code == some "SQLITE_CONSTRAINT_FOREIGNKEY") = false :=
      beq_eq_false_iff_ne.mpr hne
    unfold chatRequest
    rw [h1]
    unfold stepRetrieval
    simp only [hcid, eq_self_iff_true, if_true]
    rw [persist_route env req s none T tag r hTne hcv hpr hlp hprov []]
    unfold stepPersist
    simp only [hm, hu, hcid, eq_self_iff_true, if_true, ha]
    unfold persistCatch
    simp only [hb, Bool.false_eq_true, if_false, List.nil_append]

theorem c9_witness :
    chatRequest envC9a reqP =
      (assembleEnvelope sampleProviderResponse none "My Chat",
        [Event.messageAdded 1 3 "user"
          "Explain quantum entanglement in simple terms please" none none 100]) ∧
    chatRequest envC9b reqP =
      (genericEnvelope [qMessage],
        [Event.messageAdded 1 3 "user"
          "Explain quantum entanglement in simple terms please" none none 100]) :=
  ⟨c9_persistence_idempotency.1 envC9a reqP ⟨some "Anthropic", "m", none, none⟩
      "My Chat" "anthropic"
      "Explain quantum entanglement in simple terms please"
      sampleProviderResponse 100 fkError rfl (by decide) (by decide) (by decide)
      rfl rfl (by decide) rfl (by decide) (by decide) (by decide) rfl,
    c9_persistence_idempotency.2 envC9b reqP ⟨some "Anthropic", "m", none, none⟩
      "My Chat" "anthropic"
      "Explain quantum entanglement in simple terms please"
      sampleProviderResponse 100 busyError rfl (by decide) (by decide) (by decide)
      rfl rfl (by decide) rfl (by decide) (by decide) (by decide) (by decide)⟩

/-- C10 counterexample: a run in which the user-turn insert violates
referential integrity and is swallowed completes normally with retrieval
data present (data_content is set), yet nothing at all is persisted — in
particular the retrieval payload is never recorded — refuting the claim
that the payload is persisted on every non-error completion including those
with a swallowed persistence error. -/
theorem c10_counterexample :
    (chatRequest envC10 reqP10).1.id = 7 ∧
    (chatRequest envC10 reqP10).1.data_content =
      some (stringifyRetrievalData sampleData) ∧
    (chatRequest envC10 reqP10).2 = ([] : Trace) := by decide

/-- C10 (amended): when the persistence phase runs with retrieval data
present and none of the three writes fails, the sequence is user turn, then
assistant turn, then the retrieval payload recorded against the assistant
turn's generated id; a swallowed already-recorded failure instead aborts
the rest of the persistence sequence, so the payload write can be skipped
while the request still completes normally. -/
theorem c10_retrieval_persisted_with_assistant (env : Env) (req : ChatReq)
    (s : UserSettings) (T tag q nm : String) (rs : List RItem)
    (r : ProviderResponse) (rid aid : Int)
    (ht : req.title = some T)
    (hTne : T.isEmpty = false)
    (hcv : jsFalsyId req.conversationId = false)
    (hcidF : jsFalsyId req.collectionId = false)
    (hs : env.getUserSettings req.activeUser.id = .ok s)
    (hm : lastContent req.messages = .ok q)
    (hcn : env.getCollectionName (idVal req.collectionId) = .ok ⟨nm⟩)
    (hvq : env.vectorstoreQuery
        ⟨q, req.activeUser.id, req.activeUser.name,
          idVal req.collectionId, nm⟩ = .ok ⟨"success", none, some rs⟩)
    (hpr : env.getUserPrompt req.activeUser.id s.promptId = .ok none)
    (hlp : lookupProvider s.provider = some tag)
    (hprov : env.provider
        ⟨tag, req.messages, req.activeUser,
          (if jsFalsyNum s.temperature then
            { s with temperature := some (1 / 2 : Rat) }
          else s),
          "You are a helpful assistant.", idVal req.conversationId, T,
          req.collectionId, some ⟨rs.length, rs⟩⟩ = .ok r)
    (hu : env.addUserMessage
        ⟨req.activeUser.id, idVal req.conversationId, "user", q, none, none⟩ =
        .ok rid)
    (ha : env.addUserMessage
        ⟨req.activeUser.id, idVal req.conversationId, "assistant", r.content,
          r.reasoning, req.collectionId⟩ = .ok aid)
    (hr : env.addRetrievedData aid
        (stringifyRetrievalData ⟨rs.length, rs⟩) = .ok ()) :
    chatRequest env req =
      (assembleEnvelope r (some ⟨rs.length, rs⟩) T,
        [Event.messageAdded req.activeUser.id (idVal req.conversationId)
          "user" q none none rid,
          Event.messageAdded req.activeUser.id (idVal req.conversationId)
            "assistant" r.content r.reasoning req.collectionId aid,
          Event.retrievedDataAdded aid ⟨rs.length, rs⟩]) := by
  have h1 := reach_storedTitle_existing env req s hcv hs
  simp only [ht, jsFalsyStr, hTne, Bool.false_eq_true, if_false] at h1
  unfold chatRequest
  rw [h1]
  unfold stepRetrieval
  simp only [hcidF, Bool.false_eq_true, if_false, hcn, hm, hvq,
    show (("success" : String) == "error") = false from by decide,
    Bool.false_and, if_false]
  rw [persist_route env req s (some ⟨rs.length, rs⟩) T tag r hTne hcv hpr hlp
    hprov []]
  unfold stepPersist
  simp only [hm, hu, hcidF, Bool.false_eq_true, if_false, ha, hr]
  unfold stepEnvelope resolveFinalTitle
  simp only [hTne, Bool.false_eq_true, if_false, List.nil_append]
  rfl

theorem c10_witness :
    chatRequest happyEnv reqP10 =
      (assembleEnvelope sampleProviderResponse (some sampleData) "My Chat",
        [Event.messageAdded 1 3 "user"
          "Explain quantum entanglement in simple terms please" none none 100,
          Event.messageAdded 1 3 "assistant" "answer" none (some 7) 101,
          Event.retrievedDataAdded 101 sampleData]) :=
  c10_retrieval_persisted_with_assistant happyEnv reqP10
    ⟨some "Anthropic", "m", none, none⟩ "My Chat" "anthropic"
    "Explain quantum entanglement in simple terms please" "coll" [sampleRItem]
    sampleProviderResponse 100 101 rfl (by decide) (by decide) (by decide)
    rfl (by decide) rfl rfl rfl (by decide) rfl (by decide) (by decide) rfl
